import Mathlib

/-!
# Verification of the jobly core: partial-update SQL builder, filter-clause
# builders, authentication/authorization policy, and Job creation.

Shallow embedding of the repository's core logic:

* `sqlForPartialUpdate` (helpers/sql.js, `src/unnamed/part_001`): the
  partial-update fragment builder.
* `Company.findAll` / `Job.findAll` filter-clause construction
  (`src/models/company.js`, `src/models/job.js`), including the `pg-format`
  `%L` literal quoting used at those call sites.
* The authentication middleware and authorization checks
  (`middleware/auth.js`, present in the repository only through its tests);
  these are modelled from the spec and checked against the test vectors.
* `Job.create` (`src/models/job.js`) over an explicit database state.

JavaScript objects are embedded as association lists in iteration order;
`undefined`-able values as `Option`; thrown errors as `Except`.
-/

/-- Error taxonomy of the repository (`expressError.js`): the spec's
`ValidationError` maps to `BadRequestError` (HTTP 400), its denial kind
`Unauthorized` to `UnauthorizedError` (401), `NotFoundError` to 404. -/
inductive JoblyError : Type where
  | badRequest (msg : String)
  | unauthorized (msg : String)
  | notFound (msg : String)
  deriving DecidableEq, Repr

/-- Result record of `sqlForPartialUpdate`: `{ setCols, values }`. -/
structure SqlUpdate (α : Type) : Type where
  setCols : String
  values : List α
  deriving DecidableEq, Repr

/-- The JS subexpression `jsToSql[colName] || colName` of helpers/sql.js:
the mapped column if the key is present *and truthy* (a mapping to the
empty string is falsy and also falls back), else the key itself. -/
def resolveColJs (jsToSql : List (String × String)) (k : String) : String :=
  match jsToSql.lookup k with
  | some c => if c = "" then k else c
  | none => k

/-- Embedding of `sqlForPartialUpdate(dataToUpdate, jsToSql)` from
helpers/sql.js (`src/unnamed/part_001`).  `dataToUpdate` is an association
list in key-iteration order (JS object keys are unique and iterate in
insertion order); `jsToSql` likewise.  Each emitted assignment is the JS
template `"${jsToSql[colName] || colName}"=$${idx + 1}` (see
`resolveColJs`); `keys.length === 0` triggers `BadRequestError("No data")`.
-/
def sqlForPartialUpdate {α : Type} (dataToUpdate : List (String × α))
    (jsToSql : List (String × String)) : Except JoblyError (SqlUpdate α) :=
  if dataToUpdate.length = 0 then .error (.badRequest "No data")
  else
    let cols := dataToUpdate.enum.map (fun p =>
      "\"" ++ resolveColJs jsToSql p.2.1 ++ "\"=$" ++ toString (p.1 + 1))
    .ok { setCols := String.intercalate ", " cols,
          values := dataToUpdate.map Prod.snd }

/-- The column a key resolves to according to the spec's words
(`columnMap[key]` if present, else `key` itself verbatim).  Spec-side
definition, used only to compare the spec's claim with the code. -/
def resolveColSpec (jsToSql : List (String × String)) (k : String) : String :=
  match jsToSql.lookup k with
  | some c => c
  | none => k

/-- The assignment strings emitted for the given keys, with placeholder
numbering starting at `i`: the column (code resolution) wrapped verbatim in
double quotes, `=$`, then the placeholder index.  Consecutive keys get
consecutive (strictly increasing) placeholder numbers. -/
def assignsFrom {α : Type} (jsToSql : List (String × String)) (i : Nat) :
    List (String × α) → List String
  | [] => []
  | (k, _) :: rest =>
      ("\"" ++ resolveColJs jsToSql k ++ "\"=$" ++ toString i)
        :: assignsFrom jsToSql (i + 1) rest

theorem assignsFrom_length {α : Type} (jsToSql : List (String × String))
    (i : Nat) (data : List (String × α)) :
    (assignsFrom jsToSql i data).length = data.length := by
  induction data generalizing i with
  | nil => rfl
  | cons hd tl ih => simpa [assignsFrom] using ih (i + 1)

/-- Helper: the `enum`-with-offset map in `sqlForPartialUpdate` produces
exactly `assignsFrom`. -/
theorem enumFrom_map_eq_assignsFrom {α : Type}
    (jsToSql : List (String × String)) (i : Nat)
    (data : List (String × α)) :
    (data.enumFrom i).map (fun p =>
      "\"" ++ resolveColJs jsToSql p.2.1 ++ "\"=$" ++ toString (p.1 + 1))
      = assignsFrom jsToSql (i + 1) data := by
  induction data generalizing i with
  | nil => rfl
  | cons hd tl ih =>
      cases hd with
      | mk k v =>
          simp only [List.enumFrom, List.map, assignsFrom]
          rw [ih (i + 1)]

/-- Helper: closed form of `sqlForPartialUpdate` on non-empty data. -/
theorem sqlForPartialUpdate_eq_assigns {α : Type}
    (data : List (String × α)) (jsToSql : List (String × String))
    (h : data ≠ []) :
    sqlForPartialUpdate data jsToSql
      = .ok { setCols := String.intercalate ", " (assignsFrom jsToSql 1 data),
              values := data.map Prod.snd } := by
  have hlen : data.length ≠ 0 := by
    intro hc
    exact h (List.length_eq_zero.mp hc)
  unfold sqlForPartialUpdate
  rw [if_neg hlen]
  have := enumFrom_map_eq_assignsFrom jsToSql 0 data
  simp only [List.enum] at *
  rw [this]

/-- Parser for a PostgreSQL delimited (double-quoted) identifier body:
inside the quotes a literal `"` must be written as `""`; the first
un-doubled `"` closes the identifier.  Returns the identifier's characters
and the remaining input. -/
def parseQuotedIdentAux : List Char → Option (List Char × List Char)
  | [] => none
  | '"' :: '"' :: rest =>
      (parseQuotedIdentAux rest).map (fun p => ('"' :: p.1, p.2))
  | '"' :: rest => some ([], rest)
  | c :: rest => (parseQuotedIdentAux rest).map (fun p => (c :: p.1, p.2))

/-- Parse a leading double-quoted SQL identifier; `none` if the input does
not start with `"` or the identifier is never closed. -/
def parseQuotedIdent (l : List Char) : Option (List Char × List Char) :=
  match l with
  | '"' :: rest => parseQuotedIdentAux rest
  | _ => none

/-- C1 counterexample.  The claim resolves the column as `columnMap[key]` if
present, otherwise the key; the code instead uses the JS falsy test
`jsToSql[colName] || colName`, so a key that is *present* but mapped to the
empty string resolves to the key, not to the mapped (empty) column.  At
`data = [("a", "v")]`, `columnMap = [("a", "")]` the claim predicts the
assignment `""=$1` (empty column, identifier-quoted) but the code emits
`"a"=$1`. -/
theorem sqlForPartialUpdate_specResolve_counterexample :
    resolveColSpec [("a", "")] "a" = "" ∧
    sqlForPartialUpdate [("a", "v")] [("a", "")]
      ≠ Except.ok { setCols := String.intercalate ", "
                      ["\"" ++ resolveColSpec [("a", "")] "a" ++ "\"=$1"],
                    values := ["v"] } ∧
    sqlForPartialUpdate [("a", "v")] [("a", "")]
      = Except.ok { setCols := "\"a\"=$1", values := ["v"] } := by
  refine ⟨rfl, ?_, rfl⟩
  intro hc
  have hok : (Except.ok { setCols := "\"a\"=$1", values := ["v"] }
        : Except JoblyError (SqlUpdate String))
      = Except.ok { setCols := String.intercalate ", "
                      ["\"" ++ resolveColSpec [("a", "")] "a" ++ "\"=$1"],
                    values := ["v"] } := hc
  exact absurd (congrArg SqlUpdate.setCols (Except.ok.inj hok)) (by decide)

/-- C1 (amended): for every non-empty field mapping and column map,
`sqlForPartialUpdate` returns the comma-joined list of assignments
`"<column>"=$i` where `<column>` is `columnMap[key]` if present and truthy
(non-empty) and otherwise the key itself verbatim (`resolveColJs`), with
1-based strictly increasing placeholders in key order (`assignsFrom` counts
up by one per key from 1), one assignment per key, and the value list is
exactly the input values in the same key order, so placeholder `i` aligns
with the `i`-th value. -/
theorem sqlForPartialUpdate_fragment_aligned {α : Type}
    (data : List (String × α)) (jsToSql : List (String × String))
    (h : data ≠ []) :
    sqlForPartialUpdate data jsToSql
      = .ok { setCols := String.intercalate ", " (assignsFrom jsToSql 1 data),
              values := data.map Prod.snd }
    ∧ (assignsFrom jsToSql 1 data).length = data.length :=
  ⟨sqlForPartialUpdate_eq_assigns data jsToSql h,
   assignsFrom_length jsToSql 1 data⟩

/-- C1 witness: the doc-comment example of helpers/sql.js,
`{firstName: 'Aliya', age: 32}` with `{firstName: 'first_name'}`. -/
theorem sqlForPartialUpdate_fragment_aligned_witness :
    sqlForPartialUpdate [("firstName", "Aliya"), ("age", "32")]
        [("firstName", "first_name")]
      = Except.ok { setCols := "\"first_name\"=$1, \"age\"=$2",
                    values := ["Aliya", "32"] } := by
  have h := sqlForPartialUpdate_fragment_aligned
    [("firstName", "Aliya"), ("age", "32")] [("firstName", "first_name")]
    (by decide)
  rw [h.1]
  rfl

/-- C5: an empty field mapping fails with the 400-class error
(`BadRequestError "No data"`, the spec's `ValidationError`), for every
column map; a non-empty mapping never raises it. -/
theorem sqlForPartialUpdate_empty_fails {α : Type} :
    (∀ jsToSql : List (String × String),
      sqlForPartialUpdate ([] : List (String × α)) jsToSql
        = .error (.badRequest "No data"))
    ∧ (∀ (data : List (String × α)) (jsToSql : List (String × String)),
        data ≠ [] → ∃ r, sqlForPartialUpdate data jsToSql = .ok r) := by
  constructor
  · intro jsToSql
    rfl
  · intro data jsToSql h
    exact ⟨_, sqlForPartialUpdate_eq_assigns data jsToSql h⟩

/-- C5 witness: empty input fails; the singleton `{title: "New"}` succeeds. -/
theorem sqlForPartialUpdate_empty_fails_witness :
    (sqlForPartialUpdate ([] : List (String × String)) []
       = .error (.badRequest "No data"))
    ∧ ∃ r, sqlForPartialUpdate [("title", "New")] [] = .ok r :=
  ⟨(sqlForPartialUpdate_empty_fails).1 [],
   (sqlForPartialUpdate_empty_fails).2 [("title", "New")] [] (by decide)⟩

/-- C10: each assignment wraps the resolved column in double quotes itself
(`assignsFrom` emits `"<column>"=$i` with the column verbatim, unescaped),
and for the field name `a"b` (which contains a double quote) the emitted
fragment `"a"b"=$1` holds a prematurely closed quoted identifier: SQL
identifier parsing yields the identifier `a` — not `a"b` — with the stray
remainder `b"=$1`. -/
theorem sqlForPartialUpdate_quotes_unescaped :
    (∀ {α : Type} (data : List (String × α))
       (jsToSql : List (String × String)), data ≠ [] →
       ∃ u, sqlForPartialUpdate data jsToSql = .ok u
         ∧ u.setCols = String.intercalate ", " (assignsFrom jsToSql 1 data))
    ∧ sqlForPartialUpdate [("a\"b", "v")] ([] : List (String × String))
        = Except.ok { setCols := "\"a\"b\"=$1", values := ["v"] }
    ∧ parseQuotedIdent ("\"a\"b\"=$1".toList)
        = some ("a".toList, "b\"=$1".toList)
    ∧ ("a" : String) ≠ "a\"b" := by
  refine ⟨?_, rfl, by decide, by decide⟩
  intro α data jsToSql h
  exact ⟨_, sqlForPartialUpdate_eq_assigns data jsToSql h, rfl⟩

/-- C10 witness: the universally quantified part applied to the concrete
quote-containing input. -/
theorem sqlForPartialUpdate_quotes_unescaped_witness :
    ∃ u, sqlForPartialUpdate [("a\"b", "v")] ([] : List (String × String))
        = .ok u
      ∧ u.setCols = String.intercalate ", " (assignsFrom [] 1 [("a\"b", "v")]) :=
  (sqlForPartialUpdate_quotes_unescaped).1 [("a\"b", "v")] [] (by decide)

/-! ## pg-format `%L` literal quoting (the `pg-format` dependency used by
`Company.findAll` and `Job.findAll`) -/

/-- Body of pg-format's `quoteLiteral` (ported in that library from libpq's
`PQescapeLiteral`): every single quote and every backslash in the value is
doubled. -/
def pgQuoteBody : List Char → List Char
  | [] => []
  | c :: cs =>
      if c = '\'' then c :: c :: pgQuoteBody cs
      else if c = '\\' then c :: c :: pgQuoteBody cs
      else c :: pgQuoteBody cs

/-- Whether the value contains a backslash (pg-format's `hasBackslash`). -/
def pgHasBackslash (l : List Char) : Bool := l.any (fun c => c = '\\')

/-- pg-format `%L` applied to a string value: the doubled body wrapped in
single quotes, with an `E` prefix exactly when the value contains a
backslash (so the backslash escapes are interpreted). -/
def pgFormatLiteral (s : String) : String :=
  if pgHasBackslash s.data then
    String.mk ('E' :: '\'' :: (pgQuoteBody s.data ++ ['\'']))
  else
    String.mk ('\'' :: (pgQuoteBody s.data ++ ['\'']))

/-- pg-format `%L` applied to a number value: the number's decimal string
is quoted like a string value (its digits contain no quote or backslash,
so the body is the digits verbatim). -/
def pgFormatLiteralNat (n : Nat) : String := pgFormatLiteral (toString n)

/-- SQL lexing of a standard single-quoted string body: `''` is an escaped
quote, the first un-doubled `'` closes the literal.  Returns the decoded
value and the remaining input; `none` if the literal is never closed. -/
def parseLiteralStd : List Char → Option (List Char × List Char)
  | [] => none
  | c :: rest =>
      if c = '\'' then
        match rest with
        | '\'' :: rest2 =>
            (parseLiteralStd rest2).map (fun p => ('\'' :: p.1, p.2))
        | _ => some ([], rest)
      else (parseLiteralStd rest).map (fun p => (c :: p.1, p.2))

/-- SQL lexing of an extended (`E'...'`) string body: `''` is an escaped
quote and a backslash escapes the following character. -/
def parseLiteralExt : List Char → Option (List Char × List Char)
  | [] => none
  | c :: rest =>
      if c = '\'' then
        match rest with
        | '\'' :: rest2 =>
            (parseLiteralExt rest2).map (fun p => ('\'' :: p.1, p.2))
        | _ => some ([], rest)
      else if c = '\\' then
        match rest with
        | c2 :: rest2 =>
            (parseLiteralExt rest2).map (fun p => (c2 :: p.1, p.2))
        | [] => none
      else (parseLiteralExt rest).map (fun p => (c :: p.1, p.2))

/-- Parse a leading SQL string literal, standard or extended. -/
def parseSqlLiteral : List Char → Option (List Char × List Char)
  | 'E' :: '\'' :: rest => parseLiteralExt rest
  | '\'' :: rest => parseLiteralStd rest
  | _ => none

theorem parseLiteralExt_roundtrip (l : List Char) :
    parseLiteralExt (pgQuoteBody l ++ ['\'']) = some (l, []) := by
  induction l with
  | nil => rfl
  | cons c cs ih =>
      by_cases hq : c = '\''
      · subst hq
        simp [pgQuoteBody, parseLiteralExt, ih]
      · by_cases hb : c = '\\'
        · subst hb
          simp [pgQuoteBody, parseLiteralExt, ih]
        · rw [parseLiteralExt.eq_def]
          simp [pgQuoteBody, hq, hb, ih]

theorem parseLiteralStd_roundtrip (l : List Char) (h : '\\' ∉ l) :
    parseLiteralStd (pgQuoteBody l ++ ['\'']) = some (l, []) := by
  induction l with
  | nil => rfl
  | cons c cs ih =>
      have hb : c ≠ '\\' := fun hc => h (hc ▸ List.mem_cons_self c cs)
      have htl : '\\' ∉ cs := fun hc => h (List.mem_cons_of_mem c hc)
      by_cases hq : c = '\''
      · subst hq
        simp [pgQuoteBody, parseLiteralStd, ih htl]
      · rw [parseLiteralStd.eq_def]
        simp [pgQuoteBody, hq, hb, ih htl]

/-- pg-format's `%L` output is a single well-delimited SQL string literal
that lexes back to exactly the supplied value, consuming the whole output:
no part of the value escapes the literal. -/
theorem pgFormatLiteral_roundtrip (s : String) :
    parseSqlLiteral (pgFormatLiteral s).data = some (s.data, []) := by
  by_cases hb : pgHasBackslash s.data = true
  · rw [pgFormatLiteral, if_pos hb]
    exact parseLiteralExt_roundtrip s.data
  · rw [pgFormatLiteral, if_neg hb]
    have hnb : '\\' ∉ s.data := by
      intro hc
      exact hb (List.any_eq_true.mpr ⟨'\\', hc, by simp⟩)
    exact parseLiteralStd_roundtrip s.data hnb

/-! ## Filter-clause builders of `Company.findAll` and `Job.findAll` -/

/-- The optional filter object accepted by `Company.findAll`
(`src/models/company.js`): `{nameLike, minEmployees, maxEmployees}`, each
possibly `undefined`. -/
structure CompanyFilters : Type where
  nameLike : Option String
  minEmployees : Option Nat
  maxEmployees : Option Nat
  deriving DecidableEq, Repr

/-- The optional filter object accepted by `Job.findAll`
(`src/models/job.js`): `{title, minSalary, hasEquity}`. -/
structure JobFilters : Type where
  title : Option String
  minSalary : Option Nat
  hasEquity : Option Bool
  deriving DecidableEq, Repr

/-- The `conditions` array built by `Company.findAll`: three sequential
truthiness-guarded pushes.  JS truthiness: a string is truthy iff
non-empty, a number truthy iff non-zero; `format("... %L", v)` splices
pg-format's quoted literal. -/
def companyConditions (f : CompanyFilters) : List String :=
  (match f.nameLike with
   | some s => if s = "" then []
               else ["name ILIKE " ++ pgFormatLiteral ("%" ++ s ++ "%")]
   | none => []) ++
  (match f.minEmployees with
   | some n => if n = 0 then []
               else ["num_employees >= " ++ pgFormatLiteralNat n]
   | none => []) ++
  (match f.maxEmployees with
   | some n => if n = 0 then []
               else ["num_employees <= " ++ pgFormatLiteralNat n]
   | none => [])

/-- The `conditions` array built by `Job.findAll`.  The equity guard is
`hasEquity !== undefined && hasEquity` / `hasEquity !== undefined &&
!hasEquity`, so a *defined* `hasEquity` always pushes a predicate, even
when it is `false`. -/
def jobConditions (f : JobFilters) : List String :=
  (match f.title with
   | some s => if s = "" then []
               else ["title ILIKE " ++ pgFormatLiteral ("%" ++ s ++ "%")]
   | none => []) ++
  (match f.minSalary with
   | some n => if n = 0 then []
               else ["salary >= " ++ pgFormatLiteralNat n]
   | none => []) ++
  (match f.hasEquity with
   | some true => ["equity >= 0"]
   | some false => ["(equity = 0 OR equity = NULL)"]
   | none => [])

/-- `let whereClause = ''; if (conditions.length) whereClause = 'WHERE ' +
conditions.join(' AND ')` — shared verbatim by both models. -/
def whereClauseOf (conditions : List String) : String :=
  if conditions.length = 0 then ""
  else "WHERE " ++ String.intercalate " AND " conditions

/-- The WHERE fragment of `Company.findAll`: `conditions` stays `[]` when
`filters` is absent (the `if (filters)` guard). -/
def companyFilterClause (filters : Option CompanyFilters) : String :=
  whereClauseOf (match filters with
                 | some f => companyConditions f
                 | none => [])

/-- The WHERE fragment of `Job.findAll`. -/
def jobFilterClause (filters : Option JobFilters) : String :=
  whereClauseOf (match filters with
                 | some f => jobConditions f
                 | none => [])

/-! Per-key condition lists, named for use in the claim statements. -/

/-- Conditions contributed by the `nameLike` key alone. -/
def condCompanyName (o : Option String) : List String :=
  match o with
  | some s => if s = "" then []
              else ["name ILIKE " ++ pgFormatLiteral ("%" ++ s ++ "%")]
  | none => []

/-- Conditions contributed by the `minEmployees` key alone. -/
def condCompanyMin (o : Option Nat) : List String :=
  match o with
  | some n => if n = 0 then [] else ["num_employees >= " ++ pgFormatLiteralNat n]
  | none => []

/-- Conditions contributed by the `maxEmployees` key alone. -/
def condCompanyMax (o : Option Nat) : List String :=
  match o with
  | some n => if n = 0 then [] else ["num_employees <= " ++ pgFormatLiteralNat n]
  | none => []

/-- Conditions contributed by the `title` key alone. -/
def condJobTitle (o : Option String) : List String :=
  match o with
  | some s => if s = "" then []
              else ["title ILIKE " ++ pgFormatLiteral ("%" ++ s ++ "%")]
  | none => []

/-- Conditions contributed by the `minSalary` key alone. -/
def condJobMin (o : Option Nat) : List String :=
  match o with
  | some n => if n = 0 then [] else ["salary >= " ++ pgFormatLiteralNat n]
  | none => []

/-- Conditions contributed by the `hasEquity` key alone. -/
def condJobEquity (o : Option Bool) : List String :=
  match o with
  | some true => ["equity >= 0"]
  | some false => ["(equity = 0 OR equity = NULL)"]
  | none => []

/-- A JS string-valued filter key is absent or falsy. -/
def strFalsy (o : Option String) : Prop := o = none ∨ o = some ""

/-- A JS number-valued filter key is absent or falsy. -/
def natFalsy (o : Option Nat) : Prop := o = none ∨ o = some 0

/-- A JS boolean-valued filter key is absent or falsy. -/
def boolFalsy (o : Option Bool) : Prop := o = none ∨ o = some false

instance (o : Option String) : Decidable (strFalsy o) := by
  unfold strFalsy
  infer_instance

instance (o : Option Nat) : Decidable (natFalsy o) := by
  unfold natFalsy
  infer_instance

instance (o : Option Bool) : Decidable (boolFalsy o) := by
  unfold boolFalsy
  infer_instance

theorem whereClauseOf_nil : whereClauseOf [] = "" := rfl

theorem whereClauseOf_ne_empty (conditions : List String)
    (h : conditions ≠ []) :
    whereClauseOf conditions
      = "WHERE " ++ String.intercalate " AND " conditions
    ∧ whereClauseOf conditions ≠ "" := by
  have hlen : conditions.length ≠ 0 := by
    intro hc
    exact h (List.length_eq_zero.mp hc)
  refine ⟨by rw [whereClauseOf, if_neg hlen], ?_⟩
  rw [whereClauseOf, if_neg hlen]
  intro hc
  have hlc := congrArg String.length hc
  rw [String.length_append] at hlc
  have h6 : ("WHERE " : String).length = 6 := rfl
  have h0 : ("" : String).length = 0 := rfl
  rw [h6, h0] at hlc
  omega

theorem whereClauseOf_eq_empty_iff (conditions : List String) :
    whereClauseOf conditions = "" ↔ conditions = [] := by
  cases conditions with
  | nil => simp [whereClauseOf]
  | cons hd tl =>
      constructor
      · intro h
        exact absurd h (whereClauseOf_ne_empty (hd :: tl) (by simp)).2
      · intro h
        exact (List.cons_ne_nil hd tl h).elim

/-- C2: every substring-match filter value reaches the emitted predicate
only through pg-format `%L` quoting.  (i) The quoted literal lexes back to
exactly the raw value, consuming the entire literal — so a value containing
a quote character can never close the literal early or leak into the
surrounding SQL text unescaped; (ii) a truthy `nameLike` makes the first
company condition `name ILIKE <literal of %value%>` (a case-insensitive
contains-predicate on the name column); (iii) likewise `title` for jobs. -/
theorem filterValues_safely_parameterized :
    (∀ s : String, parseSqlLiteral (pgFormatLiteral s).data = some (s.data, []))
    ∧ (∀ (f : CompanyFilters) (s : String), f.nameLike = some s → s ≠ "" →
        (companyConditions f).head?
          = some ("name ILIKE " ++ pgFormatLiteral ("%" ++ s ++ "%")))
    ∧ (∀ (f : JobFilters) (s : String), f.title = some s → s ≠ "" →
        (jobConditions f).head?
          = some ("title ILIKE " ++ pgFormatLiteral ("%" ++ s ++ "%"))) := by
  refine ⟨pgFormatLiteral_roundtrip, ?_, ?_⟩
  · intro f s h hne
    obtain ⟨nl, mi, ma⟩ := f
    simp only at h
    subst h
    simp [companyConditions, hne]
  · intro f s h hne
    obtain ⟨t, ms, he⟩ := f
    simp only at h
    subst h
    simp [jobConditions, hne]

/-- C2 witness: the quote-containing value `d'ev`. -/
theorem filterValues_safely_parameterized_witness :
    parseSqlLiteral (pgFormatLiteral "d'ev").data = some ("d'ev".data, [])
    ∧ (companyConditions ⟨some "d'ev", none, none⟩).head?
        = some ("name ILIKE " ++ pgFormatLiteral ("%" ++ "d'ev" ++ "%"))
    ∧ (jobConditions ⟨some "d'ev", none, none⟩).head?
        = some ("title ILIKE " ++ pgFormatLiteral ("%" ++ "d'ev" ++ "%")) :=
  ⟨(filterValues_safely_parameterized).1 "d'ev",
   (filterValues_safely_parameterized).2.1 ⟨some "d'ev", none, none⟩ "d'ev"
     rfl (by decide),
   (filterValues_safely_parameterized).2.2 ⟨some "d'ev", none, none⟩ "d'ev"
     rfl (by decide)⟩

/-- C6 counterexample: in the job filter `{hasEquity: false}` every
recognized key is absent or falsy (`false` is falsy), yet the builder does
not return the empty string — the `hasEquity !== undefined` guard pushes
the zero-equity predicate even for the falsy value `false`. -/
theorem jobFilterClause_falsy_counterexample :
    strFalsy (JobFilters.mk none none (some false)).title
    ∧ natFalsy (JobFilters.mk none none (some false)).minSalary
    ∧ boolFalsy (JobFilters.mk none none (some false)).hasEquity
    ∧ jobFilterClause (some (JobFilters.mk none none (some false)))
        = "WHERE (equity = 0 OR equity = NULL)"
    ∧ jobFilterClause (some (JobFilters.mk none none (some false))) ≠ "" :=
  ⟨Or.inl rfl, Or.inl rfl, Or.inr rfl, rfl, by decide⟩

/-- C6 (amended): an absent filter specification yields the empty string;
the active predicates are exactly the per-key condition lists concatenated
in the fixed order name/title, then numeric bound(s), then boolean flag;
the clause is empty iff every recognized key is absent or falsy — except
the job builder's `hasEquity`, which contributes a predicate whenever it is
defined, even when `false` — and otherwise the clause is `WHERE ` followed
by the active predicates joined with ` AND `. -/
theorem filterClause_structure :
    companyFilterClause none = ""
    ∧ jobFilterClause none = ""
    ∧ (∀ f : CompanyFilters,
        companyConditions f
          = condCompanyName f.nameLike ++ condCompanyMin f.minEmployees
              ++ condCompanyMax f.maxEmployees)
    ∧ (∀ f : JobFilters,
        jobConditions f
          = condJobTitle f.title ++ condJobMin f.minSalary
              ++ condJobEquity f.hasEquity)
    ∧ (∀ f : CompanyFilters,
        companyFilterClause (some f) = ""
          ↔ strFalsy f.nameLike ∧ natFalsy f.minEmployees
              ∧ natFalsy f.maxEmployees)
    ∧ (∀ f : JobFilters,
        jobFilterClause (some f) = ""
          ↔ strFalsy f.title ∧ natFalsy f.minSalary ∧ f.hasEquity = none)
    ∧ (∀ f : CompanyFilters, companyConditions f ≠ [] →
        companyFilterClause (some f)
          = "WHERE " ++ String.intercalate " AND " (companyConditions f))
    ∧ (∀ f : JobFilters, jobConditions f ≠ [] →
        jobFilterClause (some f)
          = "WHERE " ++ String.intercalate " AND " (jobConditions f)) := by
  refine ⟨rfl, rfl, ?_, ?_, ?_, ?_, ?_, ?_⟩
  · intro f
    obtain ⟨nl, mi, ma⟩ := f
    cases nl <;> cases mi <;> cases ma <;> rfl
  · intro f
    obtain ⟨t, ms, he⟩ := f
    cases t <;> cases ms <;> cases he <;> rfl
  · intro f
    obtain ⟨nl, mi, ma⟩ := f
    rw [show companyFilterClause (some ⟨nl, mi, ma⟩)
          = whereClauseOf (companyConditions ⟨nl, mi, ma⟩) from rfl,
        whereClauseOf_eq_empty_iff]
    cases nl <;> cases mi <;> cases ma <;>
      simp [companyConditions, strFalsy, natFalsy]
  · intro f
    obtain ⟨t, ms, he⟩ := f
    rw [show jobFilterClause (some ⟨t, ms, he⟩)
          = whereClauseOf (jobConditions ⟨t, ms, he⟩) from rfl,
        whereClauseOf_eq_empty_iff]
    cases t <;> cases ms <;>
      rcases he with _ | _ | _ <;>
      simp [jobConditions, strFalsy, natFalsy]
  · intro f h
    exact (whereClauseOf_ne_empty (companyConditions f) h).1
  · intro f h
    exact (whereClauseOf_ne_empty (jobConditions f) h).1

/-- C6 witness: a job filter with a truthy title and `hasEquity: true`. -/
theorem filterClause_structure_witness :
    jobFilterClause (some ⟨some "dev", some 100, some true⟩)
      = "WHERE " ++ String.intercalate " AND "
          (jobConditions ⟨some "dev", some 100, some true⟩) :=
  (filterClause_structure).2.2.2.2.2.2.2 ⟨some "dev", some 100, some true⟩
    (by decide)

/-- C7: a minimum-bound key supplied with the value 0 is falsy and behaves
exactly like an absent key (no predicate); any positive value `v + 1`
contributes the `column >= <literal of value>` predicate, in its fixed
position between the substring condition and the remaining key's
conditions. -/
theorem minBound_zero_treated_absent :
    (∀ (nl : Option String) (ma : Option Nat),
        companyConditions ⟨nl, some 0, ma⟩ = companyConditions ⟨nl, none, ma⟩)
    ∧ (∀ (t : Option String) (he : Option Bool),
        jobConditions ⟨t, some 0, he⟩ = jobConditions ⟨t, none, he⟩)
    ∧ (∀ (nl : Option String) (ma : Option Nat) (v : Nat),
        companyConditions ⟨nl, some (v + 1), ma⟩
          = condCompanyName nl
              ++ ["num_employees >= " ++ pgFormatLiteralNat (v + 1)]
              ++ condCompanyMax ma)
    ∧ (∀ (t : Option String) (he : Option Bool) (v : Nat),
        jobConditions ⟨t, some (v + 1), he⟩
          = condJobTitle t
              ++ ["salary >= " ++ pgFormatLiteralNat (v + 1)]
              ++ condJobEquity he) := by
  refine ⟨fun nl ma => rfl, fun t he => rfl, ?_, ?_⟩
  · intro nl ma v
    cases nl <;> cases ma <;>
      simp [companyConditions, condCompanyName, condCompanyMax]
  · intro t he v
    cases t <;> rcases he with _ | _ | _ <;>
      simp [jobConditions, condJobTitle, condJobEquity]

/-- C8: a defined `hasEquity` appends exactly one predicate after the other
conditions — `equity >= 0` (non-negative equity) when `true`, the
zero-equity predicate `(equity = 0 OR equity = NULL)` when explicitly
`false` — and an undefined `hasEquity` contributes nothing: the conditions
are exactly the title and salary ones. -/
theorem hasEquity_predicates :
    (∀ (t : Option String) (ms : Option Nat),
        jobConditions ⟨t, ms, some true⟩
          = jobConditions ⟨t, ms, none⟩ ++ ["equity >= 0"])
    ∧ (∀ (t : Option String) (ms : Option Nat),
        jobConditions ⟨t, ms, some false⟩
          = jobConditions ⟨t, ms, none⟩ ++ ["(equity = 0 OR equity = NULL)"])
    ∧ (∀ (t : Option String) (ms : Option Nat),
        jobConditions ⟨t, ms, none⟩ = condJobTitle t ++ condJobMin ms) := by
  refine ⟨?_, ?_, ?_⟩
  · intro t ms
    simp [jobConditions, List.append_assoc]
  · intro t ms
    simp [jobConditions, List.append_assoc]
  · intro t ms
    cases t <;> cases ms <;> simp [jobConditions, condJobTitle, condJobMin]

/-! ## Authentication middleware and authorization policy

`middleware/auth.js` is present in the repository only through its test
suite and its importers; the definitions below are modelled from the spec
(§4.3/§4.4) and validated against the concrete vectors of that test file.
-/

/-- The identity claims carried by a verified credential:
`{username, isAdmin, iat}`. -/
structure JwtPayload : Type where
  username : String
  isAdmin : Bool
  iat : Nat
  deriving DecidableEq, Repr

/-- Modelled from the spec: a bearer credential as seen by the verifier —
either malformed, or a token whose claims were signed with some secret and
which may have expired.  (Token issuance/signing mechanics are out of the
spec's scope; only the claims contract matters.) -/
inductive Credential : Type where
  | malformed : Credential
  | signed (payload : JwtPayload) (secret : String) (expired : Bool) :
      Credential
  deriving DecidableEq, Repr

/-- Modelled from the spec: `jwt.verify(token, key)` — fails on a malformed
token, a wrong signature, or an expired token; otherwise yields the decoded
claims. -/
def jwtVerify (key : String) : Credential → Except String JwtPayload
  | .malformed => .error "jwt malformed"
  | .signed payload secret expired =>
      if secret = key then
        if expired then .error "jwt expired" else .ok payload
      else .error "invalid signature"

/-- A JS `try { body } catch (err) { handler }` over a throwing
computation. -/
def tryCatchExpr {ε α : Type} (body : Except ε α) (handler : ε → Except ε α) :
    Except ε α :=
  match body with
  | .ok v => .ok v
  | .error e => handler e

/-- Modelled from the spec: the `authenticateJWT` middleware
(`middleware/auth.js`, absent from src; its tests are
`src/schemas/jobNew.json` lines 67–108).  The per-request identity context
starts empty (`none`); with no bearer credential it stays empty; a present
credential is verified inside try/catch, a verification failure being
silently swallowed (context stays empty) and success storing the decoded
claims.  The outer `Except` is the middleware's own error channel: `.ok`
means it proceeded to the next stage without throwing. -/
def authenticateJWT (key : String) (bearer : Option Credential) :
    Except String (Option JwtPayload) :=
  tryCatchExpr
    (match bearer with
     | none => .ok none
     | some c =>
         match jwtVerify key c with
         | .ok payload => .ok (some payload)
         | .error e => .error e)
    (fun _ => .ok none)

/-- Modelled from the spec: `ensureLoggedIn` — passes iff the identity
context is non-empty, else raises `Unauthorized`. -/
def ensureLoggedIn (ctx : Option JwtPayload) : Except JoblyError Unit :=
  match ctx with
  | some _ => .ok ()
  | none => .error (.unauthorized "Unauthorized")

/-- Modelled from the spec: `ensureIsAdmin` — passes iff the identity
context is non-empty and `isAdmin` is true, else raises `Unauthorized`. -/
def ensureIsAdmin (ctx : Option JwtPayload) : Except JoblyError Unit :=
  match ctx with
  | some u =>
      if u.isAdmin then .ok () else .error (.unauthorized "Unauthorized")
  | none => .error (.unauthorized "Unauthorized")

/-- Modelled from the spec: `ensureIsAdminOrSelf` — passes iff the identity
context is non-empty and the actor is an admin or is the route-supplied
target subject, else raises `Unauthorized`. -/
def ensureIsAdminOrSelf (ctx : Option JwtPayload) (target : String) :
    Except JoblyError Unit :=
  match ctx with
  | some u =>
      if u.isAdmin ∨ u.username = target then .ok ()
      else .error (.unauthorized "Unauthorized")
  | none => .error (.unauthorized "Unauthorized")

/-- C3: `authenticateJWT` never throws (it always reaches the next stage
with an `.ok` context); a missing credential and every verification
failure leave the context empty, and a verifying credential populates the
context with exactly the decoded `{username, isAdmin, iat}` claims.  The
final conjuncts are the test vectors of the middleware test file: a valid
token, no header, and a token signed with a wrong secret. -/
theorem authenticateJWT_silent_and_exact :
    (∀ (key : String) (bearer : Option Credential),
        ∃ ctx, authenticateJWT key bearer = .ok ctx)
    ∧ (∀ key : String, authenticateJWT key none = .ok none)
    ∧ (∀ (key : String) (c : Credential) (e : String),
        jwtVerify key c = .error e → authenticateJWT key (some c) = .ok none)
    ∧ (∀ (key : String) (c : Credential) (p : JwtPayload),
        jwtVerify key c = .ok p →
          authenticateJWT key (some c) = .ok (some p))
    ∧ authenticateJWT "secret"
        (some (.signed ⟨"test", false, 1⟩ "secret" false))
        = .ok (some ⟨"test", false, 1⟩)
    ∧ authenticateJWT "secret" none = .ok none
    ∧ authenticateJWT "secret"
        (some (.signed ⟨"test", false, 1⟩ "wrong" false)) = .ok none
    ∧ authenticateJWT "secret" (some .malformed) = .ok none
    ∧ authenticateJWT "secret"
        (some (.signed ⟨"test", false, 1⟩ "secret" true)) = .ok none := by
  refine ⟨?_, fun key => rfl, ?_, ?_, rfl, rfl, rfl, rfl, rfl⟩
  · intro key bearer
    cases bearer with
    | none => exact ⟨none, rfl⟩
    | some c =>
        cases hv : jwtVerify key c with
        | ok p =>
            exact ⟨some p, by simp [authenticateJWT, tryCatchExpr, hv]⟩
        | error e =>
            exact ⟨none, by simp [authenticateJWT, tryCatchExpr, hv]⟩
  · intro key c e h
    simp [authenticateJWT, tryCatchExpr, h]
  · intro key c p h
    simp [authenticateJWT, tryCatchExpr, h]

/-- C3 witness: the verification-failure implication at a concrete
wrong-secret credential, and the success implication at a valid one. -/
theorem authenticateJWT_silent_and_exact_witness :
    authenticateJWT "k" (some (.signed ⟨"u1", false, 7⟩ "other" false))
      = .ok none
    ∧ authenticateJWT "k" (some (.signed ⟨"u1", false, 7⟩ "k" false))
        = .ok (some ⟨"u1", false, 7⟩) :=
  ⟨(authenticateJWT_silent_and_exact).2.2.1 "k"
     (.signed ⟨"u1", false, 7⟩ "other" false) "invalid signature" rfl,
   (authenticateJWT_silent_and_exact).2.2.2.1 "k"
     (.signed ⟨"u1", false, 7⟩ "k" false) ⟨"u1", false, 7⟩ rfl⟩

/-- C4: exact pass/deny characterization of the three authorization
checks, over every identity context and target subject name — each check
passes (returns `.ok`) iff its condition holds and raises the
`Unauthorized` denial exactly otherwise — together with the seven concrete
vectors of the middleware test file. -/
theorem authorization_checks_pass_iff :
    (∀ (ctx : Option JwtPayload) (target : String),
      (ensureLoggedIn ctx = .ok () ↔ ctx ≠ none)
      ∧ (ensureLoggedIn ctx = .error (.unauthorized "Unauthorized")
          ↔ ctx = none)
      ∧ (ensureIsAdmin ctx = .ok ()
          ↔ ∃ u, ctx = some u ∧ u.isAdmin = true)
      ∧ (ensureIsAdmin ctx = .error (.unauthorized "Unauthorized")
          ↔ ¬∃ u, ctx = some u ∧ u.isAdmin = true)
      ∧ (ensureIsAdminOrSelf ctx target = .ok ()
          ↔ ∃ u, ctx = some u ∧ (u.isAdmin = true ∨ u.username = target))
      ∧ (ensureIsAdminOrSelf ctx target
            = .error (.unauthorized "Unauthorized")
          ↔ ¬∃ u, ctx = some u ∧ (u.isAdmin = true ∨ u.username = target)))
    ∧ ensureLoggedIn (some ⟨"test", false, 0⟩) = .ok ()
    ∧ ensureLoggedIn none = .error (.unauthorized "Unauthorized")
    ∧ ensureIsAdmin (some ⟨"adminuser", true, 0⟩) = .ok ()
    ∧ ensureIsAdmin (some ⟨"test", false, 0⟩)
        = .error (.unauthorized "Unauthorized")
    ∧ ensureIsAdminOrSelf (some ⟨"adminuser", true, 0⟩) "test" = .ok ()
    ∧ ensureIsAdminOrSelf (some ⟨"test", false, 0⟩) "test" = .ok ()
    ∧ ensureIsAdminOrSelf (some ⟨"test", false, 0⟩) "test2"
        = .error (.unauthorized "Unauthorized") := by
  refine ⟨?_, rfl, rfl, rfl, rfl, rfl, ?_, ?_⟩
  · intro ctx target
    cases ctx with
    | none =>
        simp [ensureLoggedIn, ensureIsAdmin, ensureIsAdminOrSelf]
    | some u =>
        cases hA : u.isAdmin with
        | true =>
            simp [ensureLoggedIn, ensureIsAdmin, ensureIsAdminOrSelf, hA]
        | false =>
            by_cases hS : u.username = target
            · simp [ensureLoggedIn, ensureIsAdmin, ensureIsAdminOrSelf,
                hA, hS]
            · simp [ensureLoggedIn, ensureIsAdmin, ensureIsAdminOrSelf,
                hA, hS]
  · show ensureIsAdminOrSelf (some ⟨"test", false, 0⟩) "test" = .ok ()
    rw [ensureIsAdminOrSelf, if_pos (Or.inr rfl)]
  · show ensureIsAdminOrSelf (some ⟨"test", false, 0⟩) "test2"
        = .error (.unauthorized "Unauthorized")
    rw [ensureIsAdminOrSelf, if_neg (by decide)]

/-- C4 witness: the general characterization applied to the is-self case. -/
theorem authorization_checks_pass_iff_witness :
    ensureIsAdminOrSelf (some ⟨"test", false, 0⟩) "test" = .ok () :=
  (((authorization_checks_pass_iff).1 (some ⟨"test", false, 0⟩)
      "test").2.2.2.2.1).mpr ⟨⟨"test", false, 0⟩, rfl, Or.inr rfl⟩

/-! ## `Job.create` over an explicit database state -/

/-- A row of the `companies` table, with the columns `Job.create` selects:
`handle, name, num_employees, description, logo_url`. -/
structure CompanyRow : Type where
  handle : String
  name : String
  numEmployees : Nat
  description : String
  logoUrl : String
  deriving DecidableEq, Repr

/-- A row of the `jobs` table.  `equity` is a PostgreSQL NUMERIC, which the
node driver surfaces as a string; it is stored opaquely here. -/
structure JobRow : Type where
  id : Nat
  title : String
  salary : Nat
  equity : String
  companyHandle : String
  deriving DecidableEq, Repr

/-- The relational store visible to `Job.create`: the two tables and the
`jobs.id` sequence. -/
structure DbState : Type where
  companies : List CompanyRow
  jobs : List JobRow
  nextJobId : Nat
  deriving DecidableEq, Repr

/-- The value `Job.create` resolves with: the inserted row's columns plus
the nested company object. -/
structure JobCreated : Type where
  id : Nat
  title : String
  salary : Nat
  equity : String
  company : CompanyRow
  deriving DecidableEq, Repr

/-- Embedding of `Job.create` (`src/models/job.js`): first `SELECT ... FROM
companies WHERE handle = $1`; if no row, throw
`BadRequestError("Company handle not found: ...")` — before the `INSERT`,
so the state is returned unchanged; otherwise `INSERT INTO jobs`
(appending a row under a fresh id) and resolve with the new job carrying
the company object. -/
def jobCreate (st : DbState) (title : String) (salary : Nat)
    (equity : String) (companyHandle : String) :
    Except JoblyError JobCreated × DbState :=
  match st.companies.find? (fun c => c.handle == companyHandle) with
  | none =>
      (.error (.badRequest ("Company handle not found: " ++ companyHandle)),
       st)
  | some company =>
      let row : JobRow :=
        { id := st.nextJobId, title := title, salary := salary,
          equity := equity, companyHandle := companyHandle }
      (.ok { id := row.id, title := title, salary := salary,
             equity := equity, company := company },
       { st with jobs := st.jobs ++ [row], nextJobId := st.nextJobId + 1 })

/-- C9: when `companyHandle` matches no existing company, `Job.create`
fails with the 400-class `BadRequestError` (the spec's
`ValidationError`-class condition) and the database state — in particular
the jobs store — is returned unchanged: nothing was inserted. -/
theorem jobCreate_unknown_company_rejected
    (st : DbState) (title : String) (salary : Nat) (equity : String)
    (companyHandle : String)
    (h : ∀ c ∈ st.companies, c.handle ≠ companyHandle) :
    jobCreate st title salary equity companyHandle
      = (.error (.badRequest ("Company handle not found: " ++ companyHandle)),
         st)
    ∧ (jobCreate st title salary equity companyHandle).2.jobs = st.jobs := by
  have hfind : st.companies.find? (fun c => c.handle == companyHandle)
      = none := by
    rw [List.find?_eq_none]
    intro c hc
    simpa using h c hc
  constructor
  · rw [jobCreate, hfind]
  · rw [jobCreate, hfind]

/-- C9 witness: a store holding one company `c1` rejects a job referencing
the absent handle `nope`. -/
theorem jobCreate_unknown_company_rejected_witness :
    jobCreate
        { companies := [{ handle := "c1", name := "C1", numEmployees := 1,
                          description := "d", logoUrl := "l" }],
          jobs := [], nextJobId := 1 }
        "Developer" 70000 "0" "nope"
      = (.error (.badRequest ("Company handle not found: " ++ "nope")),
         { companies := [{ handle := "c1", name := "C1", numEmployees := 1,
                           description := "d", logoUrl := "l" }],
           jobs := [], nextJobId := 1 }) :=
  (jobCreate_unknown_company_rejected _ "Developer" 70000 "0" "nope"
    (by decide)).1
